import Mathlib

/-!
Shallow embedding of `src/rastervision/backend/torch_utils/model.py`
(raster-vision): the Faster-RCNN adapter (`MyFasterRCNN.forward`), the
backbone builder (`resnet_fpn_backbone`) and the channel-introspection
helper (`get_out_channels`), together with interface models of the
external collaborators (the `BoxList` container and the torchvision
detector).

Numeric scalars (box coordinates, loss values, scores) are modelled as
integers: every property verified here is structural (list lengths,
ordering, key sums, filtering), so the float-vs-int distinction does not
matter and integers keep all definitions decidably computable.
-/

namespace RasterVision

/-- A single axis-aligned box: a 4-tuple of coordinates, in either the
harness ordering (min-row, min-col, max-row, max-col) or the detector
ordering (min-col, min-row, max-col, max-row). -/
abbrev Box := Int × Int × Int × Int

/-- Modelled from the spec: the `BoxList` container
(`rastervision.backend.torch_utils.boxlist`, not under `src/`): an ordered
sequence of boxes for one image plus parallel per-box field arrays
(`labels`, optional `scores`); every transformation returns a new
instance. -/
structure BoxList where
  boxes : List Box
  labels : List Int
  scores : List Int
deriving DecidableEq

/-- Swapping the two coordinate pairs of a box converts between the
min-row/min-col ordering and the min-col/min-row ordering. -/
def swapBox : Box → Box
  | (a, b, c, d) => (b, a, d, c)

/-- Modelled from the spec: `BoxList.xyxy` — convert the boxes from the
harness ordering (yxyx) to the detector ordering (xyxy), returning a new
`BoxList` with the same fields. -/
def BoxList.xyxy (bl : BoxList) : BoxList :=
  ⟨bl.boxes.map swapBox, bl.labels, bl.scores⟩

/-- Modelled from the spec: `BoxList.yxyx` — convert the boxes from the
detector ordering (xyxy) back to the harness ordering (yxyx), returning a
new `BoxList` with the same fields. -/
def BoxList.yxyx (bl : BoxList) : BoxList :=
  ⟨bl.boxes.map swapBox, bl.labels, bl.scores⟩

/-- Keep the entries of `xs` whose position carries `true` in `mask`
(boolean-mask row selection, order preserving). -/
def maskFilter {α : Type} (mask : List Bool) (xs : List α) : List α :=
  ((mask.zip xs).filter (fun p => p.1)).map (fun p => p.2)

/-- Modelled from the spec: `BoxList.ind_filter` — filter the boxes and
every field array by a boolean mask, returning a new `BoxList`. -/
def BoxList.ind_filter (bl : BoxList) (mask : List Bool) : BoxList :=
  ⟨maskFilter mask bl.boxes, maskFilter mask bl.labels, maskFilter mask bl.scores⟩

/-- An input image: `forward` only ever reads `x.shape[1:]`, i.e. the
spatial height and width (the channel count is fixed at 3 and pixel
values never reach the logic of the adapter itself). -/
structure Image where
  h : Nat
  w : Nat
deriving DecidableEq

/-- A target in the native layout of the torchvision detector: a record
with `boxes` (xyxy ordering) and `labels` keys. -/
structure DetTarget where
  boxes : List Box
  labels : List Int
deriving DecidableEq

/-- Per-image inference output of the torchvision detector: boxes in its
native xyxy ordering plus parallel labels and scores (already filtered to
score > 0.05 by the detector itself). -/
structure DetOut where
  boxes : List Box
  labels : List Int
  scores : List Int
deriving DecidableEq

/-- The 4 loss components returned by the training
call of the torchvision detector. -/
structure LossComponents where
  loss_box_reg : Int
  loss_classifier : Int
  loss_objectness : Int
  loss_rpn_box_reg : Int
deriving DecidableEq

/-- The loss record returned by the adapter in training mode: the 4
components plus the aggregate `total_loss` key inserted by `forward`. -/
structure LossRecord where
  components : LossComponents
  total_loss : Int
deriving DecidableEq

/-- Errors of the underlying detector, surfaced unchanged by the
adapter. -/
inductive DetErr where
  | batchSizeMismatch
  | zeroBoxTarget
  | malformedInput
deriving DecidableEq

/-- Interface of the wrapped torchvision detector (`self.model`), an
external collaborator: a training call on images plus native-layout
targets and an inference call on images alone. -/
structure Detector where
  train : List Image → List DetTarget → Except DetErr LossComponents
  infer : List Image → Except DetErr (List DetOut)

/-- Result of `MyFasterRCNN.forward`: a loss record (training mode) or a
per-image list of prediction `BoxList`s (inference mode). -/
inductive ForwardResult where
  | losses (r : LossRecord)
  | preds (bls : List BoxList)
deriving DecidableEq

/-- Python truthiness of the `targets` argument as tested by
`if targets:` — `None` and the empty list are falsy, a non-empty list is
truthy. -/
def targetsTruthy : Option (List BoxList) → Bool
  | none => false
  | some ts => !ts.isEmpty

/-- The synthetic background box appended for an image of height `h` and
width `w`: coordinates `[0, 0, h, w]` in the min-row/min-col harness
ordering. -/
def bogusBox (img : Image) : Box :=
  ((0 : Int), (0 : Int), (img.h : Int), (img.w : Int))

/-- One iteration of the training-branch loop: concatenate the bogus
background box onto `y.boxes`, the label `0` onto the `labels` field of `y`,
and build a fresh `BoxList(boxes, labels=labels)` (which carries no
`scores` field). -/
def augmentTarget (x : Image) (y : BoxList) : BoxList :=
  ⟨y.boxes ++ [bogusBox x], y.labels ++ [(0 : Int)], []⟩

/-- The `new_targets` list built by the training branch: one augmented
`BoxList` per `zip(input, targets)` pair. -/
def augmented_targets (input : List Image) (ts : List BoxList) : List BoxList :=
  (input.zip ts).map (fun p => augmentTarget p.1 p.2)

/-- The `_targets` records handed to the underlying detector: each
augmented `BoxList` converted with `.xyxy()` and then repackaged as a
`boxes`/`labels` record. -/
def trainingTargets (input : List Image) (ts : List BoxList) : List DetTarget :=
  ((augmented_targets input ts).map BoxList.xyxy).map
    (fun bl => ⟨bl.boxes, bl.labels⟩)

/-- The inference-branch post-processing: wrap each per-image detector
output in a `BoxList`, convert with `.yxyx()`, then drop every box whose
label equals the background id 0 via `ind_filter` on the mask
`labels != 0`. -/
def inference_boxlists (outs : List DetOut) : List BoxList :=
  (outs.map (fun o => (BoxList.mk o.boxes o.labels o.scores).yxyx)).map
    (fun bl => bl.ind_filter (bl.labels.map (fun l => l ≠ 0)))

/-- `MyFasterRCNN.forward`: training branch when `targets` is truthy
(augment targets with bogus boxes, convert, call the detector, insert
`total_loss` as the sum of the returned loss values), inference branch
otherwise (call the detector, convert outputs, strip background boxes).
Detector errors propagate unchanged. -/
def forward (det : Detector) (input : List Image)
    (targets : Option (List BoxList)) : Except DetErr ForwardResult :=
  if targetsTruthy targets then
    match det.train input (trainingTargets input (targets.getD [])) with
    | Except.error e => Except.error e
    | Except.ok lc =>
        Except.ok (ForwardResult.losses
          ⟨lc, lc.loss_box_reg + lc.loss_classifier + lc.loss_objectness +
               lc.loss_rpn_box_reg⟩)
  else
    match det.infer input with
    | Except.error e => Except.error e
    | Except.ok outs => Except.ok (ForwardResult.preds (inference_boxlists outs))

/-- Modelled from the spec: the torchvision Faster-RCNN training call
(external collaborator): it fails on an image/target batch-size mismatch
and when some target has zero ground-truth boxes, and otherwise returns
the 4 loss components (their values, `L`, are detector-internal and not
specified). -/
def torchvisionTrain (L : LossComponents) (imgs : List Image)
    (ts : List DetTarget) : Except DetErr LossComponents :=
  if ts.length ≠ imgs.length then Except.error DetErr.batchSizeMismatch
  else if ts.any (fun t => t.boxes.isEmpty) then Except.error DetErr.zeroBoxTarget
  else Except.ok L

/-- Modelled from the spec: a torchvision detector whose training call is
`torchvisionTrain L` and whose inference call returns the fixed per-image
outputs `os` (padded/truncated questions do not arise in the claims that
use it: it is only ever applied at matching lengths). -/
def specDetector (L : LossComponents) (os : List DetOut) : Detector :=
  ⟨torchvisionTrain L, fun _ => Except.ok os⟩

/-! ### Backbone construction: parameter freezing -/

/-- Substring test on names, as the negated Python substring-membership test applied to
`layer2` / `layer3` / `layer4` and a parameter name. -/
def nameContains (s : String) (pat : String) : Bool :=
  decide (pat.toList <:+: s.toList)

/-- The freezing loop of `resnet_fpn_backbone`: the parameters of the
backbone
as (name, requires_grad) pairs; a parameter whose name mentions none of
`layer2`, `layer3`, `layer4` gets `requires_grad_(False)`, every other
parameter keeps its flag. -/
def freeze_layers (params : List (String × Bool)) : List (String × Bool) :=
  params.map (fun p =>
    if ¬ nameContains p.1 "layer2" ∧ ¬ nameContains p.1 "layer3" ∧
        ¬ nameContains p.1 "layer4"
    then (p.1, false) else p)

/-! ### Backbone construction: channel introspection via forward hooks -/

/-- The shape of a 4-dimensional tensor (batch, channel, height, width);
`get_out_channels` only ever observes shapes, so pixel values are not
modelled. -/
structure Shape where
  n : Nat
  c : Nat
  h : Nat
  w : Nat
deriving DecidableEq

/-- One residual stage of the base extractor: a convolutional block whose
output channel count is a property of the stage and whose spatial
dimensions are a function of the input spatial dimensions. -/
structure Stage where
  outC : Nat
  spatial : Nat → Nat

/-- Apply a stage to an input shape. -/
def applyStage (st : Stage) (s : Shape) : Shape :=
  ⟨s.n, st.outC, st.spatial s.h, st.spatial s.w⟩

/-- A forward hook registered on a stage. `save_output layer_name` records
the channel dimension of the output under `layer_name`; a hook whose `replace`
component is set would substitute the stage output (PyTorch replaces the
output when a hook returns a value — `save_output` returns nothing, so its
`replace` is `none`). -/
structure Hook where
  key : String
  replace : Option (Shape → Shape)

/-- The `save_output(layer_name)` closure made by `make_save_output`. -/
def save_output (layer_name : String) : Hook :=
  ⟨layer_name, none⟩

/-- The introspection dictionary `out` captured by the hooks: channel
count per layer name. -/
def RecMap : Type := String → Option Nat

/-- The empty dictionary `out = {}`. -/
def emptyRec : RecMap := fun _ => none

/-- `out[layer_name] = c`. -/
def insertRec (m : RecMap) (k : String) (v : Nat) : RecMap :=
  fun k' => if k' = k then some v else m k'

/-- Fire the hooks attached to one stage on its output shape: each hook
records the channel dimension under its key and, were its `replace` set,
would substitute the output seen downstream. -/
def runHooksStage (hooks : List Hook) (s : Shape) (m : RecMap) : Shape × RecMap :=
  hooks.foldl
    (fun acc hk =>
      let m' := insertRec acc.2 hk.key acc.1.c
      match hk.replace with
      | none => (acc.1, m')
      | some f => (f acc.1, m'))
    (s, m)

/-- The base residual network as `get_out_channels` and `forward` see it:
a stem followed by the 4 named stages `layer1..layer4`, each stage
carrying its list of registered forward hooks. -/
structure ResNetBody where
  stemC : Nat
  stemSpatial : Nat → Nat
  layer1 : Stage
  layer2 : Stage
  layer3 : Stage
  layer4 : Stage
  hooks1 : List Hook
  hooks2 : List Hook
  hooks3 : List Hook
  hooks4 : List Hook

/-- The observable trace of one forward pass of the body: the (possibly
hook-replaced) output shape of each stage and the final state of the
introspection dictionary. The classifier head after `layer4` neither has
hooks nor feeds the pyramid, so it is not modelled. -/
structure ForwardTrace where
  s1 : Shape
  s2 : Shape
  s3 : Shape
  s4 : Shape
  out : RecMap

/-- One forward pass of the base network on input shape `x`, starting
from introspection dictionary `m0`: stem, then each stage followed by its
hooks. -/
def ResNetBody.runForward (net : ResNetBody) (x : Shape) (m0 : RecMap) :
    ForwardTrace :=
  let s0 : Shape := ⟨x.n, net.stemC, net.stemSpatial x.h, net.stemSpatial x.w⟩
  let r1 := runHooksStage net.hooks1 (applyStage net.layer1 s0) m0
  let r2 := runHooksStage net.hooks2 (applyStage net.layer2 r1.1) r1.2
  let r3 := runHooksStage net.hooks3 (applyStage net.layer3 r2.1) r2.2
  let r4 := runHooksStage net.hooks4 (applyStage net.layer4 r3.1) r3.2
  ⟨r1.1, r2.1, r3.1, r4.1, r4.2⟩

/-- The four register_forward_hook calls of
`get_out_channels`, one save_output observer per stage (PyTorch appends
each new hook to the hook list of the stage and the code never removes it). -/
def registerSaveOutputs (net : ResNetBody) : ResNetBody :=
  ⟨net.stemC, net.stemSpatial, net.layer1, net.layer2, net.layer3, net.layer4,
   net.hooks1 ++ [save_output "layer1"], net.hooks2 ++ [save_output "layer2"],
   net.hooks3 ++ [save_output "layer3"], net.hooks4 ++ [save_output "layer4"]⟩

/-- The dummy input `torch.empty((1, 3, 128, 128))`: a single 3-channel
image of fixed small spatial size (its element values are uninitialized
and never observed — only its shape matters). -/
def introspectionInput : Shape :=
  ⟨1, 3, 128, 128⟩

/-- `get_out_channels`: register the 4 observers, run one forward pass on
the dummy input with a fresh dictionary, and read off the 4 recorded
channel counts in `layer1..layer4` order — returning also the network as
it is left behind (the adapter keeps using this very object).
`none` models the `KeyError` that a missing key would raise. -/
def get_out_channels (net : ResNetBody) : Option (List Nat) × ResNetBody :=
  let net' := registerSaveOutputs net
  let tr := net'.runForward introspectionInput emptyRec
  (match tr.out "layer1", tr.out "layer2", tr.out "layer3", tr.out "layer4" with
   | some a, some b, some c, some d => some [a, b, c, d]
   | _, _, _, _ => none,
   net')

/-- A 4-dimensional tensor with element values: its shape together with a
flat element read. Only the dummy-input allocation needs values — the
introspection pass itself observes shapes alone. -/
structure Tensor4 where
  shape : Shape
  elems : Nat → Int

/-- The allocation `torch.empty((1, 3, 128, 128))`: the shape is fixed by
the code, but `torch.empty` does NOT zero the elements — they are
whatever the freshly returned `buffer` happens to contain, so the buffer
contents are a parameter of the semantics, not chosen by the code. -/
def torchEmpty (buffer : Nat → Int) : Tensor4 :=
  ⟨⟨1, 3, 128, 128⟩, buffer⟩

/-- `get_out_channels` rendered value-aware: the dummy input is the
uninitialized tensor `torchEmpty buffer`, and the forward pass consumes
only its shape. -/
def get_out_channels_val (net : ResNetBody) (buffer : Nat → Int) :
    Option (List Nat) × ResNetBody :=
  let dummy := torchEmpty buffer
  let net' := registerSaveOutputs net
  let tr := net'.runForward dummy.shape emptyRec
  (match tr.out "layer1", tr.out "layer2", tr.out "layer3", tr.out "layer4" with
   | some a, some b, some c, some d => some [a, b, c, d]
   | _, _, _, _ => none,
   net')

/-! ### Heap-level model of the training branch (frame effects) -/

/-- A heap of `BoxList` objects; an address is an index and allocation
appends. The op-level semantics distinguishes allocating a fresh object
from writing into an existing one, so "never mutates an input in place"
is a real property of the op sequence the code performs. -/
abbrev Store : Type := List BoxList

/-- Allocate a fresh `BoxList` object, returning its address. -/
def Store.alloc (st : Store) (v : BoxList) : Store × Nat :=
  (st ++ [v], st.length)

/-- Read the object at an address (reads of a dangling address yield the
empty `BoxList`; the claims only ever read valid addresses). -/
def Store.read (st : Store) (a : Nat) : BoxList :=
  st.getD a ⟨[], [], []⟩

/-- The bogus-box loop of the training branch at heap level: for each
`(image, target-address)` pair, read the caller-owned `BoxList`, build the
augmented value with concatenated boxes/labels (fresh tensors), and
allocate it as a new `BoxList` object, collecting `new_targets`
addresses. -/
def storeAugment : Store → List (Image × Nat) → Store × List Nat
  | st, [] => (st, [])
  | st, (x, t) :: rest =>
      let y := st.read t
      let alloc1 := st.alloc (augmentTarget x y)
      let r := storeAugment alloc1.1 rest
      (r.1, alloc1.2 :: r.2)

/-- The `_targets = [bl.xyxy() for bl in targets]` comprehension at heap
level: `.xyxy()` allocates a new converted `BoxList` per entry. -/
def storeConvert : Store → List Nat → Store × List Nat
  | st, [] => (st, [])
  | st, a :: rest =>
      let alloc1 := st.alloc ((st.read a).xyxy)
      let r := storeConvert alloc1.1 rest
      (r.1, alloc1.2 :: r.2)

/-- The whole training-branch target pipeline at heap level: bogus-box
augmentation followed by coordinate conversion, starting from the
caller-supplied target addresses. -/
def storeForwardTrain (st : Store) (ps : List (Image × Nat)) : Store × List Nat :=
  let r := storeAugment st ps
  storeConvert r.1 r.2

/-- A base network as freshly instantiated by
`resnet.__dict__[backbone_name](...)`: stem plus 4 stages, with no
forward hooks registered yet. -/
def freshResNet (sc : Nat) (sp : Nat → Nat) (l1 l2 l3 l4 : Stage) : ResNetBody :=
  ⟨sc, sp, l1, l2, l3, l4, [], [], [], []⟩

/-- A demonstration stage with a given output channel count and halving
spatial resolution. -/
def demoStage (c : Nat) : Stage :=
  ⟨c, fun n => n / 2⟩

/-! ### Helper lemmas -/

lemma swapBox_swapBox (b : Box) : swapBox (swapBox b) = b := by
  obtain ⟨a, b, c, d⟩ := b
  rfl

lemma maskFilter_cons {α : Type} (b : Bool) (mask : List Bool) (x : α)
    (xs : List α) :
    maskFilter (b :: mask) (x :: xs) =
      if b then x :: maskFilter mask xs else maskFilter mask xs := by
  cases b <;> simp [maskFilter]

lemma mem_maskFilter_map {α : Type} (p : α → Bool) :
    ∀ (xs : List α) (x : α), x ∈ maskFilter (xs.map p) xs → p x = true := by
  intro xs
  induction xs with
  | nil => simp [maskFilter]
  | cons y ys ih =>
      intro x hx
      rw [List.map_cons, maskFilter_cons] at hx
      rcases hy : p y with _ | _
      · rw [hy] at hx
        simp only [if_neg Bool.false_ne_true] at hx
        exact ih x hx
      · rw [hy] at hx
        simp only [if_pos rfl] at hx
        rcases List.mem_cons.mp hx with h | h
        · rw [h]; exact hy
        · exact ih x h

lemma maskFilter_map_length {α β : Type} (p : α → Bool) :
    ∀ (xs : List α) (ys : List β), ys.length = xs.length →
      (maskFilter (xs.map p) ys).length = xs.countP p := by
  intro xs
  induction xs with
  | nil =>
      intro ys h
      rw [List.length_eq_zero.mp h]
      simp [maskFilter]
  | cons x xs ih =>
      intro ys h
      match ys with
      | [] => exact absurd h.symm (by simp)
      | y :: ys =>
          rw [List.map_cons, maskFilter_cons, List.countP_cons]
          have hlen := ih ys (by simpa using h)
          rcases hx : p x with _ | _
          · simp [hx, hlen]
          · simp [hx, hlen]

lemma storeAugment_extends : ∀ (ps : List (Image × Nat)) (st : Store),
    ∃ ext, (storeAugment st ps).1 = st ++ ext := by
  intro ps
  induction ps with
  | nil => intro st; exact ⟨[], by simp [storeAugment]⟩
  | cons p rest ih =>
      intro st
      obtain ⟨ext, hext⟩ := ih (st ++ [augmentTarget p.1 (st.read p.2)])
      exact ⟨[augmentTarget p.1 (st.read p.2)] ++ ext, by
        obtain ⟨x, t⟩ := p
        simp only [storeAugment, Store.alloc]
        rw [hext, List.append_assoc]⟩

lemma storeConvert_extends : ∀ (as_ : List Nat) (st : Store),
    ∃ ext, (storeConvert st as_).1 = st ++ ext := by
  intro as_
  induction as_ with
  | nil => intro st; exact ⟨[], by simp [storeConvert]⟩
  | cons a rest ih =>
      intro st
      obtain ⟨ext, hext⟩ := ih (st ++ [(st.read a).xyxy])
      exact ⟨[(st.read a).xyxy] ++ ext, by
        simp only [storeConvert, Store.alloc]
        rw [hext, List.append_assoc]⟩

lemma trainingTargets_boxes_ne_nil (input : List Image) (ts : List BoxList) :
    ∀ dt ∈ trainingTargets input ts, dt.boxes ≠ [] := by
  intro dt hdt
  simp only [trainingTargets, augmented_targets, List.map_map, List.mem_map] at hdt
  obtain ⟨p, _, hp⟩ := hdt
  rw [← hp]
  simp [augmentTarget, BoxList.xyxy, Function.comp]

lemma trainingTargets_length (input : List Image) (ts : List BoxList) :
    (trainingTargets input ts).length = min input.length ts.length := by
  simp [trainingTargets, augmented_targets]

/-! ### Claim theorems -/

/-- C9: converting a `BoxList` from the harness ordering to the detector
ordering (`xyxy`) and back (`yxyx`) reproduces the original coordinates
exactly, and vice versa: the two conversions used by the adapter are
mutually inverse bijections. -/
theorem boxlist_ordering_roundtrip (bl : BoxList) :
    (bl.xyxy).yxyx = bl ∧ (bl.yxyx).xyxy = bl := by
  have hcomp : (swapBox ∘ swapBox) = id := funext swapBox_swapBox
  obtain ⟨bs, ls, ss⟩ := bl
  constructor <;> simp [BoxList.xyxy, BoxList.yxyx, List.map_map, hcomp]

/-- C1: every loss record returned by the adapter in training mode stores
under `total_loss` exactly the sum of the 4 component values returned by
the underlying detector, and carries those components unchanged. -/
theorem forward_total_loss_eq_sum (det : Detector) (input : List Image)
    (ts : List BoxList) (lc : LossComponents)
    (hts : ts ≠ [])
    (hdet : det.train input (trainingTargets input ts) = Except.ok lc) :
    forward det input (some ts) =
      Except.ok (ForwardResult.losses
        ⟨lc, lc.loss_box_reg + lc.loss_classifier + lc.loss_objectness +
             lc.loss_rpn_box_reg⟩) := by
  have htruthy : targetsTruthy (some ts) = true := by
    simp [targetsTruthy, hts]
  simp [forward, htruthy, hdet]

/-- C1 witness: a concrete training call whose detector losses are
(1, 2, 3, 4) yields the total 10. -/
theorem forward_total_loss_eq_sum_witness :
    ([(⟨[], [], []⟩ : BoxList)] ≠ ([] : List BoxList)) ∧
    ((specDetector ⟨1, 2, 3, 4⟩ []).train [⟨32, 32⟩]
        (trainingTargets [⟨32, 32⟩] [⟨[], [], []⟩]) = Except.ok ⟨1, 2, 3, 4⟩) ∧
    forward (specDetector ⟨1, 2, 3, 4⟩ []) [⟨32, 32⟩] (some [⟨[], [], []⟩]) =
      Except.ok (ForwardResult.losses ⟨⟨1, 2, 3, 4⟩, 10⟩) :=
  ⟨by decide, by rfl,
   forward_total_loss_eq_sum (specDetector ⟨1, 2, 3, 4⟩ []) [⟨32, 32⟩]
     [⟨[], [], []⟩] ⟨1, 2, 3, 4⟩ (by decide) (by rfl)⟩

/-- C5: an empty target list is falsy under the Python test `if targets:`,
so `forward` with `targets = []` behaves exactly as the inference-mode
call with `targets = None` and returns predictions, not a loss record —
contradicting the documented contract that a supplied target list selects
training mode. -/
theorem forward_empty_targets_takes_inference (det : Detector)
    (input : List Image) (L : LossComponents) (os : List DetOut) :
    forward det input (some []) = forward det input none ∧
    forward (specDetector L os) [] (some []) =
      Except.ok (ForwardResult.preds (inference_boxlists os)) :=
  ⟨rfl, rfl⟩

/-- C4 counterexample: the stem parameter `conv1.weight` (requires_grad
true on a fresh backbone) is frozen by the freezing loop, refuting the
claim that every stem parameter stays trainable. -/
theorem freeze_layers_stem_frozen :
    ¬ (∀ p ∈ freeze_layers [("conv1.weight", true)], p.2 = true) := by
  decide

/-- C4 (amended): the freezing loop freezes every parameter whose name
mentions none of `layer2`, `layer3`, `layer4` — all of `layer1`, the stem
and the classifier head included — and leaves the flag of every
`layer2`/`layer3`/`layer4` parameter unchanged (trainable). -/
theorem freeze_layers_policy (params : List (String × Bool)) (i : Nat)
    (name : String) (flag : Bool) (h : params[i]? = some (name, flag)) :
    (freeze_layers params)[i]? =
      some (if nameContains name "layer2" ∨ nameContains name "layer3" ∨
               nameContains name "layer4"
            then (name, flag) else (name, false)) := by
  simp only [freeze_layers, List.getElem?_map, h, Option.map_some]
  by_cases h2 : nameContains name "layer2"
  · simp [h2]
  · by_cases h3 : nameContains name "layer3"
    · simp [h3]
    · by_cases h4 : nameContains name "layer4"
      · simp [h4]
      · simp [h2, h3, h4]

/-- C4 witness: on the two-parameter list (stem conv, layer2 conv) the
stem parameter comes out frozen and the layer2 parameter stays
trainable. -/
theorem freeze_layers_policy_witness :
    (([("conv1.weight", true), ("layer2.0.conv1.weight", true)] :
        List (String × Bool))[0]? = some ("conv1.weight", true)) ∧
    (freeze_layers [("conv1.weight", true), ("layer2.0.conv1.weight", true)])[0]? =
      some (if nameContains "conv1.weight" "layer2" ∨
               nameContains "conv1.weight" "layer3" ∨
               nameContains "conv1.weight" "layer4"
            then ("conv1.weight", true) else ("conv1.weight", false)) :=
  ⟨by decide,
   freeze_layers_policy [("conv1.weight", true), ("layer2.0.conv1.weight", true)]
     0 "conv1.weight" true (by decide)⟩

/-- C2: in training mode every image/target pair gets exactly one
synthetic background box `[0, 0, h, w]` (min-row/min-col ordering) with
label 0 appended; a zero-box target therefore has exactly 1 box after
augmentation, and the training call on the (spec-modelled) detector does
not fail. -/
theorem bogus_box_augmentation (input : List Image) (ts : List BoxList)
    (hlen : ts.length = input.length) :
    (augmented_targets input ts).length = input.length ∧
    (∀ (i : Nat) (hi : i < input.length) (ht : i < ts.length)
        (ha : i < (augmented_targets input ts).length),
      (augmented_targets input ts).get ⟨i, ha⟩ =
        ⟨(ts.get ⟨i, ht⟩).boxes ++ [bogusBox (input.get ⟨i, hi⟩)],
         (ts.get ⟨i, ht⟩).labels ++ [(0 : Int)], []⟩) ∧
    (∀ (i : Nat) (ht : i < ts.length)
        (ha : i < (augmented_targets input ts).length),
      (ts.get ⟨i, ht⟩).boxes = [] →
        ((augmented_targets input ts).get ⟨i, ha⟩).boxes.length = 1) ∧
    (ts ≠ [] → ∀ L : LossComponents,
      forward (specDetector L []) input (some ts) =
        Except.ok (ForwardResult.losses
          ⟨L, L.loss_box_reg + L.loss_classifier + L.loss_objectness +
              L.loss_rpn_box_reg⟩)) := by
  refine ⟨?_, ?_, ?_, ?_⟩
  · simp [augmented_targets, hlen]
  · intro i hi ht ha
    simp [augmented_targets, List.get_eq_getElem, List.getElem_map,
      List.getElem_zip, augmentTarget]
  · intro i ht ha hnil
    rw [List.get_eq_getElem] at hnil
    simp [augmented_targets, List.get_eq_getElem, List.getElem_map,
      List.getElem_zip, augmentTarget, hnil]
  · intro hne L
    have htruthy : targetsTruthy (some ts) = true := by
      simp [targetsTruthy, hne]
    have hlen2 : (trainingTargets input ts).length = input.length := by
      rw [trainingTargets_length, hlen, Nat.min_self]
    have hany : (trainingTargets input ts).any (fun t => t.boxes.isEmpty) = false := by
      rw [List.any_eq_false]
      intro t ht
      simpa using trainingTargets_boxes_ne_nil input ts t ht
    simp [forward, htruthy, specDetector, torchvisionTrain, hlen2, hany]

/-- C2 witness: one 4×6 image with a zero-box target — the augmented
target holds exactly the full-extent background box and training
succeeds. -/
theorem bogus_box_augmentation_witness :
    (([(⟨[], [], []⟩ : BoxList)].length) = [(⟨4, 6⟩ : Image)].length) ∧
    ((augmented_targets [⟨4, 6⟩] [⟨[], [], []⟩]).length = [(⟨4, 6⟩ : Image)].length ∧
     (∀ (i : Nat) (hi : i < [(⟨4, 6⟩ : Image)].length)
         (ht : i < [(⟨[], [], []⟩ : BoxList)].length)
         (ha : i < (augmented_targets [⟨4, 6⟩] [⟨[], [], []⟩]).length),
       (augmented_targets [⟨4, 6⟩] [⟨[], [], []⟩]).get ⟨i, ha⟩ =
         ⟨([(⟨[], [], []⟩ : BoxList)].get ⟨i, ht⟩).boxes ++
            [bogusBox ([(⟨4, 6⟩ : Image)].get ⟨i, hi⟩)],
          ([(⟨[], [], []⟩ : BoxList)].get ⟨i, ht⟩).labels ++ [(0 : Int)], []⟩) ∧
     (∀ (i : Nat) (ht : i < [(⟨[], [], []⟩ : BoxList)].length)
         (ha : i < (augmented_targets [⟨4, 6⟩] [⟨[], [], []⟩]).length),
       ([(⟨[], [], []⟩ : BoxList)].get ⟨i, ht⟩).boxes = [] →
         ((augmented_targets [⟨4, 6⟩] [⟨[], [], []⟩]).get ⟨i, ha⟩).boxes.length = 1) ∧
     (([(⟨[], [], []⟩ : BoxList)] : List BoxList) ≠ [] → ∀ L : LossComponents,
       forward (specDetector L []) [⟨4, 6⟩] (some [⟨[], [], []⟩]) =
         Except.ok (ForwardResult.losses
           ⟨L, L.loss_box_reg + L.loss_classifier + L.loss_objectness +
               L.loss_rpn_box_reg⟩))) :=
  ⟨by decide, bogus_box_augmentation [⟨4, 6⟩] [⟨[], [], []⟩] (by decide)⟩

/-- C3: in inference mode no returned `BoxList` contains a box with the
background label 0; each returned `BoxList` has exactly as many boxes as
the detector emitted non-background labels for that image (so an
all-background image yields an empty `BoxList`, and 5 boxes of which 2
are background yield 3). -/
theorem forward_inference_no_background (det : Detector) (input : List Image)
    (outs : List DetOut)
    (hdet : det.infer input = Except.ok outs)
    (hwf : ∀ o ∈ outs, o.boxes.length = o.labels.length) :
    forward det input none = Except.ok (ForwardResult.preds (inference_boxlists outs)) ∧
    (∀ bl ∈ inference_boxlists outs, ∀ l ∈ bl.labels, l ≠ 0) ∧
    (inference_boxlists outs).length = outs.length ∧
    (∀ (i : Nat) (ho : i < outs.length) (hb : i < (inference_boxlists outs).length),
      ((inference_boxlists outs).get ⟨i, hb⟩).boxes.length =
        (outs.get ⟨i, ho⟩).labels.countP (fun l => l ≠ 0) ∧
      ((inference_boxlists outs).get ⟨i, hb⟩).labels.length =
        (outs.get ⟨i, ho⟩).labels.countP (fun l => l ≠ 0)) := by
  refine ⟨?_, ?_, ?_, ?_⟩
  · simp [forward, targetsTruthy, hdet]
  · intro bl hbl l hl
    simp only [inference_boxlists, List.map_map, List.mem_map,
      Function.comp] at hbl
    obtain ⟨o, _, rfl⟩ := hbl
    have hmem : l ∈ maskFilter ((o.labels).map (fun l => decide (l ≠ 0)))
        o.labels := hl
    have := mem_maskFilter_map (fun l => decide (l ≠ 0)) o.labels l hmem
    simpa using this
  · simp [inference_boxlists]
  · intro i ho hb
    have homem : outs.get ⟨i, ho⟩ ∈ outs := List.get_mem outs i ho
    have hwfi := hwf _ homem
    constructor
    · simp only [inference_boxlists, List.get_eq_getElem, List.getElem_map,
        BoxList.ind_filter, BoxList.yxyx]
      exact maskFilter_map_length (fun l => decide (l ≠ 0)) _ _
        (by simpa using hwfi)
    · simp only [inference_boxlists, List.get_eq_getElem, List.getElem_map,
        BoxList.ind_filter, BoxList.yxyx]
      exact maskFilter_map_length (fun l => decide (l ≠ 0)) _ _ rfl

/-- C3 witness: the detector returns 5 boxes for one image, 2 of them
background — the adapter returns one 3-box `BoxList` with labels
(1, 2, 3); the explicit value shows the surviving boxes in the harness
ordering. -/
theorem forward_inference_no_background_witness :
    ((specDetector ⟨0, 0, 0, 0⟩
        [⟨[(1, 2, 3, 4), (5, 6, 7, 8), (9, 10, 11, 12), (13, 14, 15, 16),
           (17, 18, 19, 20)], [0, 1, 0, 2, 3], [50, 60, 70, 80, 90]⟩]).infer
        [⟨32, 32⟩] =
      Except.ok [⟨[(1, 2, 3, 4), (5, 6, 7, 8), (9, 10, 11, 12), (13, 14, 15, 16),
           (17, 18, 19, 20)], [0, 1, 0, 2, 3], [50, 60, 70, 80, 90]⟩]) ∧
    (∀ o ∈ [(⟨[(1, 2, 3, 4), (5, 6, 7, 8), (9, 10, 11, 12), (13, 14, 15, 16),
           (17, 18, 19, 20)], [0, 1, 0, 2, 3], [50, 60, 70, 80, 90]⟩ : DetOut)],
      o.boxes.length = o.labels.length) ∧
    (∀ bl ∈ inference_boxlists
        [⟨[(1, 2, 3, 4), (5, 6, 7, 8), (9, 10, 11, 12), (13, 14, 15, 16),
           (17, 18, 19, 20)], [0, 1, 0, 2, 3], [50, 60, 70, 80, 90]⟩],
      ∀ l ∈ bl.labels, l ≠ 0) ∧
    inference_boxlists
        [⟨[(1, 2, 3, 4), (5, 6, 7, 8), (9, 10, 11, 12), (13, 14, 15, 16),
           (17, 18, 19, 20)], [0, 1, 0, 2, 3], [50, 60, 70, 80, 90]⟩] =
      [⟨[(6, 5, 8, 7), (14, 13, 16, 15), (18, 17, 20, 19)], [1, 2, 3],
        [60, 80, 90]⟩] :=
  ⟨rfl, by decide,
   (forward_inference_no_background
     (specDetector ⟨0, 0, 0, 0⟩
       [⟨[(1, 2, 3, 4), (5, 6, 7, 8), (9, 10, 11, 12), (13, 14, 15, 16),
          (17, 18, 19, 20)], [0, 1, 0, 2, 3], [50, 60, 70, 80, 90]⟩])
     [⟨32, 32⟩]
     [⟨[(1, 2, 3, 4), (5, 6, 7, 8), (9, 10, 11, 12), (13, 14, 15, 16),
        (17, 18, 19, 20)], [0, 1, 0, 2, 3], [50, 60, 70, 80, 90]⟩]
     rfl (by decide)).2.1,
   by decide⟩

/-- C7 counterexample: a batch-size-mismatched training call — 1 image
with 2 targets — succeeds silently: `zip(input, targets)` truncates to
the shorter sequence, so the detector is invoked with exactly 1 target
(the excess target is dropped before the detector sees it) and returns a
loss record. -/
theorem excess_targets_call_succeeds :
    (trainingTargets [⟨32, 32⟩]
        [⟨[], [], []⟩, ⟨[((1 : Int), 2, 3, 4)], [7], []⟩]).length = 1 ∧
    forward (specDetector ⟨1, 2, 3, 4⟩ []) [⟨32, 32⟩]
        (some [⟨[], [], []⟩, ⟨[((1 : Int), 2, 3, 4)], [7], []⟩]) =
      Except.ok (ForwardResult.losses ⟨⟨1, 2, 3, 4⟩, 10⟩) :=
  ⟨by decide, by rfl⟩

/-- C7 (amended): the training branch hands the detector exactly
`min(batch size, target count)` targets. When fewer targets than images
are supplied the shortened list reaches the detector and its
batch-size-mismatch error propagates unchanged; when at least as many
targets as images are supplied the excess targets are silently dropped by
the pairwise zip and the (spec-modelled) detector call succeeds. -/
theorem target_batch_mismatch (input : List Image) (ts : List BoxList)
    (L : LossComponents) (hne : ts ≠ []) :
    (trainingTargets input ts).length = min input.length ts.length ∧
    (ts.length < input.length →
      forward (specDetector L []) input (some ts) =
        Except.error DetErr.batchSizeMismatch) ∧
    (input.length ≤ ts.length →
      forward (specDetector L []) input (some ts) =
        Except.ok (ForwardResult.losses
          ⟨L, L.loss_box_reg + L.loss_classifier + L.loss_objectness +
              L.loss_rpn_box_reg⟩)) := by
  have htruthy : targetsTruthy (some ts) = true := by
    simp [targetsTruthy, hne]
  refine ⟨trainingTargets_length input ts, ?_, ?_⟩
  · intro hlt
    have hlen2 : (trainingTargets input ts).length = ts.length := by
      rw [trainingTargets_length]
      exact Nat.min_eq_right (Nat.le_of_lt hlt)
    have hneq : (trainingTargets input ts).length ≠ input.length := by
      rw [hlen2]
      exact Nat.ne_of_lt hlt
    simp [forward, htruthy, specDetector, torchvisionTrain, hneq]
  · intro hle
    have hlen2 : (trainingTargets input ts).length = input.length := by
      rw [trainingTargets_length]
      exact Nat.min_eq_left hle
    have hany : (trainingTargets input ts).any (fun t => t.boxes.isEmpty) = false := by
      rw [List.any_eq_false]
      intro t ht
      simpa using trainingTargets_boxes_ne_nil input ts t ht
    simp [forward, htruthy, specDetector, torchvisionTrain, hlen2, hany]

/-- C7 witness: 2 images with a single target — the detector receives the
1-element target list and its batch-size-mismatch error is surfaced
unchanged. -/
theorem target_batch_mismatch_witness :
    (([(⟨[], [], []⟩ : BoxList)] : List BoxList) ≠ []) ∧
    ((trainingTargets [⟨8, 8⟩, ⟨8, 8⟩] [⟨[], [], []⟩]).length =
        min [(⟨8, 8⟩ : Image), ⟨8, 8⟩].length [(⟨[], [], []⟩ : BoxList)].length ∧
     (([(⟨[], [], []⟩ : BoxList)].length < [(⟨8, 8⟩ : Image), ⟨8, 8⟩].length) →
       forward (specDetector ⟨1, 2, 3, 4⟩ []) [⟨8, 8⟩, ⟨8, 8⟩]
           (some [⟨[], [], []⟩]) = Except.error DetErr.batchSizeMismatch) ∧
     (([(⟨8, 8⟩ : Image), ⟨8, 8⟩].length ≤ [(⟨[], [], []⟩ : BoxList)].length) →
       forward (specDetector ⟨1, 2, 3, 4⟩ []) [⟨8, 8⟩, ⟨8, 8⟩]
           (some [⟨[], [], []⟩]) =
         Except.ok (ForwardResult.losses ⟨⟨1, 2, 3, 4⟩, 10⟩))) :=
  ⟨by decide,
   target_batch_mismatch [⟨8, 8⟩, ⟨8, 8⟩] [⟨[], [], []⟩] ⟨1, 2, 3, 4⟩ (by decide)⟩

/-- C8 counterexample: the dummy input of the introspection pass is NOT
zero-valued — `torch.empty` leaves the buffer uninitialized, so with a
buffer that happens to contain 1 everywhere the pass runs on a tensor of
the right shape whose elements are all non-zero, and still records the 4
channel counts correctly. -/
theorem introspection_input_not_zero_valued :
    ((torchEmpty (fun _ => 1)).shape = introspectionInput ∧
     ¬ (∀ i, (torchEmpty (fun _ => 1)).elems i = 0)) ∧
    (get_out_channels_val
        (freshResNet 64 (fun n => n / 4)
          (demoStage 64) (demoStage 128) (demoStage 256) (demoStage 512))
        (fun _ => 1)).1 =
      some [64, 128, 256, 512] :=
  ⟨⟨rfl, fun h => absurd (h 0) (by decide)⟩, rfl⟩

/-- C8 (amended): `get_out_channels` runs its one forward pass on a
throwaway *uninitialized* (not zero-valued) input of fixed small spatial
size — a single 3-channel 128×128 image whose element values are never
observed, so the result is the same for every buffer content — and
returns exactly the output channel counts of `layer1..layer4`, in that
order; those counts coincide with the channel dimension observed at each
stage on an arbitrary input shape. -/
theorem get_out_channels_spec (sc : Nat) (sp : Nat → Nat) (l1 l2 l3 l4 : Stage) :
    introspectionInput = ⟨1, 3, 128, 128⟩ ∧
    (∀ buffer : Nat → Int,
      (torchEmpty buffer).shape = introspectionInput ∧
      get_out_channels_val (freshResNet sc sp l1 l2 l3 l4) buffer =
        get_out_channels (freshResNet sc sp l1 l2 l3 l4)) ∧
    (get_out_channels (freshResNet sc sp l1 l2 l3 l4)).1 =
      some [l1.outC, l2.outC, l3.outC, l4.outC] ∧
    ∀ (x : Shape) (m0 : RecMap),
      ((freshResNet sc sp l1 l2 l3 l4).runForward x m0).s1.c = l1.outC ∧
      ((freshResNet sc sp l1 l2 l3 l4).runForward x m0).s2.c = l2.outC ∧
      ((freshResNet sc sp l1 l2 l3 l4).runForward x m0).s3.c = l3.outC ∧
      ((freshResNet sc sp l1 l2 l3 l4).runForward x m0).s4.c = l4.outC := by
  refine ⟨rfl, fun buffer => ⟨rfl, rfl⟩, rfl, ?_⟩
  intro x m0
  exact ⟨rfl, rfl, rfl, rfl⟩

/-- C6 counterexample: after `get_out_channels` returns, the observer
registered on `layer1` is still attached to the backbone the adapter
keeps using — the code never calls `remove()` on the hook handles, so the
observers are not discarded. -/
theorem introspection_hooks_not_discarded :
    (get_out_channels (freshResNet 64 (fun n => n / 4)
        (demoStage 64) (demoStage 128) (demoStage 256) (demoStage 512))).2.hooks1 ≠
      [] := by
  simp [get_out_channels, registerSaveOutputs, freshResNet]

/-- C6 (amended): the 4 observers stay registered on the base network
after backbone build, but every subsequent forward pass produces exactly
the stage outputs it would produce without them — a `save_output` hook
only records a channel dimension and replaces nothing. -/
theorem introspection_hooks_persist_transparent (sc : Nat) (sp : Nat → Nat)
    (l1 l2 l3 l4 : Stage) (x : Shape) (m0 : RecMap) :
    ((get_out_channels (freshResNet sc sp l1 l2 l3 l4)).2.hooks1 ≠ [] ∧
     (get_out_channels (freshResNet sc sp l1 l2 l3 l4)).2.hooks2 ≠ [] ∧
     (get_out_channels (freshResNet sc sp l1 l2 l3 l4)).2.hooks3 ≠ [] ∧
     (get_out_channels (freshResNet sc sp l1 l2 l3 l4)).2.hooks4 ≠ []) ∧
    (((get_out_channels (freshResNet sc sp l1 l2 l3 l4)).2.runForward x m0).s1 =
       ((freshResNet sc sp l1 l2 l3 l4).runForward x m0).s1 ∧
     ((get_out_channels (freshResNet sc sp l1 l2 l3 l4)).2.runForward x m0).s2 =
       ((freshResNet sc sp l1 l2 l3 l4).runForward x m0).s2 ∧
     ((get_out_channels (freshResNet sc sp l1 l2 l3 l4)).2.runForward x m0).s3 =
       ((freshResNet sc sp l1 l2 l3 l4).runForward x m0).s3 ∧
     ((get_out_channels (freshResNet sc sp l1 l2 l3 l4)).2.runForward x m0).s4 =
       ((freshResNet sc sp l1 l2 l3 l4).runForward x m0).s4) := by
  refine ⟨⟨?_, ?_, ?_, ?_⟩, rfl, rfl, rfl, rfl⟩ <;>
    simp [get_out_channels, registerSaveOutputs, freshResNet]

/-- C10: the training-branch target pipeline only allocates new `BoxList`
objects — the heap it returns extends the heap of the caller, and every
caller-owned address still holds exactly the `BoxList` (boxes and label
array) it held before the call. -/
theorem storeForwardTrain_frame (st : Store) (ps : List (Image × Nat))
    (a : Nat) (ha : a < st.length) :
    (∃ ext, (storeForwardTrain st ps).1 = st ++ ext) ∧
    (storeForwardTrain st ps).1[a]? = st[a]? := by
  obtain ⟨e1, h1⟩ := storeAugment_extends ps st
  obtain ⟨e2, h2⟩ := storeConvert_extends (storeAugment st ps).2 (storeAugment st ps).1
  have hst : (storeForwardTrain st ps).1 = st ++ (e1 ++ e2) := by
    simp only [storeForwardTrain]
    rw [h2, h1, List.append_assoc]
  refine ⟨⟨e1 ++ e2, hst⟩, ?_⟩
  rw [hst, List.getElem?_append, if_pos ha]

/-- C10 witness: one caller-owned `BoxList` at address 0 is bit-for-bit
unchanged by a training call that augments it. -/
theorem storeForwardTrain_frame_witness :
    (0 < ([(⟨[((1 : Int), 2, 3, 4)], [5], []⟩ : BoxList)] : Store).length) ∧
    ((∃ ext, (storeForwardTrain [⟨[((1 : Int), 2, 3, 4)], [5], []⟩]
        [(⟨8, 8⟩, 0)]).1 = [(⟨[((1 : Int), 2, 3, 4)], [5], []⟩ : BoxList)] ++ ext) ∧
     (storeForwardTrain [⟨[((1 : Int), 2, 3, 4)], [5], []⟩] [(⟨8, 8⟩, 0)]).1[0]? =
       ([(⟨[((1 : Int), 2, 3, 4)], [5], []⟩ : BoxList)] : Store)[0]?) :=
  ⟨by decide,
   storeForwardTrain_frame [⟨[((1 : Int), 2, 3, 4)], [5], []⟩] [(⟨8, 8⟩, 0)] 0
     (by decide)⟩

end RasterVision
